import Mathlib

/-!
NX-SDK common types (`include/types/nx_common.h`).

The header declares six unscoped enumerations inside `namespace nxos`.  An
enumeration is embedded as the list of its enumerators in declaration order,
each with the initialiser written in the header (`some v` for `NAME = v`,
`none` for a bare `NAME`).  The integer value of every enumerator is computed
by the C++ rule: an enumerator with an initialiser takes that value, one
without takes the value of the preceding enumerator plus one, and a first
enumerator without initialiser is zero.
-/

namespace nxos

/-- One enumerator of an enumeration as written in the header: its identifier
and the optional `= constant` initialiser. -/
structure Enumerator where
  name : String
  init : Option Int
  deriving DecidableEq, Repr

/-- An enumeration declaration: the enumerators in declaration order. -/
abbrev EnumDecl := List Enumerator

/-- Value assignment of C++ enumerators.  `next` is the value an enumerator
without initialiser receives (zero at the start, the previous value plus one
afterwards). -/
def assignFrom : Int → List Enumerator → List (String × Int)
  | _, [] => []
  | next, e :: rest =>
    let v := e.init.getD next
    (e.name, v) :: assignFrom (v + 1) rest

/-- The enumerators of a declaration paired with their integer values, in
declaration order. -/
def enumerators (d : EnumDecl) : List (String × Int) := assignFrom 0 d

/-- Supported Record types. -/
def record_type_e : EnumDecl :=
  [⟨"R_TEXT", some 0⟩, ⟨"R_JSON", none⟩, ⟨"R_XML", none⟩, ⟨"R_MAX_TYPE", none⟩]

/-- Supported Action types. -/
def event_type_e : EnumDecl :=
  [⟨"NO_EVENT", some 0⟩, ⟨"ADD", some 1⟩, ⟨"DELETE", none⟩, ⟨"UPDATE", none⟩,
   ⟨"E_MAX_TYPE", none⟩]

/-- Supported State types. -/
def state_type_e : EnumDecl :=
  [⟨"DOWN", some 0⟩, ⟨"UP", none⟩, ⟨"S_MAX_TYPE", none⟩]

/-- Supported Encap types. -/
def encap_type_e : EnumDecl :=
  [⟨"NONE", some 0⟩, ⟨"VXLAN", none⟩, ⟨"ENCAP_MAX_TYPE", none⟩]

/-- Address family types. -/
def af_e : EnumDecl :=
  [⟨"AF_START", some 0⟩, ⟨"AF_IPV4", some 0⟩, ⟨"AF_IPV6", some 1⟩, ⟨"MAX_AF", none⟩]

/-- Supported Priority Types. -/
def prio_e : EnumDecl :=
  [⟨"LOW_PRIO", some 1⟩, ⟨"MED_PRIO", none⟩, ⟨"HIGH_PRIO", none⟩, ⟨"NO_PRIO", none⟩]

/-- The six enumerations of the header, in the order they are declared. -/
def allEnums : List EnumDecl :=
  [record_type_e, event_type_e, state_type_e, encap_type_e, af_e, prio_e]

/-- Integer value of the enumerator called `nm` (the enumerator-to-integer
conversion); `none` when the enumeration declares no such name. -/
def valueOf (d : EnumDecl) (nm : String) : Option Int :=
  ((enumerators d).find? (fun p => p.1 == nm)).map Prod.snd

/-- Names declared by an enumeration, in declaration order. -/
def names (d : EnumDecl) : List String := (enumerators d).map Prod.fst

/-- Integer values of an enumeration, in declaration order. -/
def values (d : EnumDecl) : List Int := (enumerators d).map Prod.snd

/-- Integer-to-member conversion: the member with value `n` is reported under
the name of the first enumerator declared with that value (a later enumerator
with the same value is the same member of the enumeration type); `none` when
no enumerator has value `n`. -/
def memberOf (d : EnumDecl) (n : Int) : Option String :=
  ((enumerators d).find? (fun p => p.2 == n)).map Prod.fst

/-- Converting the enumerator `nm` to its integer and that integer back to a
member. -/
def roundTrip (d : EnumDecl) (nm : String) : Option String :=
  (valueOf d nm).bind (memberOf d)

/-- The header marks a bound enumerator by `MAX` in its identifier
(`R_MAX_TYPE`, `E_MAX_TYPE`, `S_MAX_TYPE`, `ENCAP_MAX_TYPE`, `MAX_AF`). -/
def isMaxName (s : String) : Bool := decide ("MAX".toList <:+: s.toList)

/-- The sentinel of an enumeration: its last-declared enumerator, provided
that enumerator is a `MAX` bound. -/
def sentinel (d : EnumDecl) : Option (String × Int) :=
  (enumerators d).getLast?.filter (fun p => isMaxName p.1)

/-- The enumerators other than the sentinel, in declaration order. -/
def realTags (d : EnumDecl) : List (String × Int) :=
  (enumerators d).filter (fun p => some p != sentinel d)

/-- The five enumerations whose first value is zero and whose last enumerator
is a `MAX` bound. -/
def zeroBased : List EnumDecl :=
  [record_type_e, event_type_e, state_type_e, encap_type_e, af_e]

/-- Pairs of enumerators that are adjacent in declaration order. -/
def adjacent (d : EnumDecl) : List ((String × Int) × (String × Int)) :=
  (enumerators d).zip (enumerators d).tail

/-! Section: Evaluation lemmas. -/

theorem enumerators_record_type_e : enumerators record_type_e =
    [("R_TEXT", 0), ("R_JSON", 1), ("R_XML", 2), ("R_MAX_TYPE", 3)] := by decide

theorem enumerators_event_type_e : enumerators event_type_e =
    [("NO_EVENT", 0), ("ADD", 1), ("DELETE", 2), ("UPDATE", 3), ("E_MAX_TYPE", 4)] := by
  decide

theorem enumerators_state_type_e : enumerators state_type_e =
    [("DOWN", 0), ("UP", 1), ("S_MAX_TYPE", 2)] := by decide

theorem enumerators_encap_type_e : enumerators encap_type_e =
    [("NONE", 0), ("VXLAN", 1), ("ENCAP_MAX_TYPE", 2)] := by decide

theorem enumerators_af_e : enumerators af_e =
    [("AF_START", 0), ("AF_IPV4", 0), ("AF_IPV6", 1), ("MAX_AF", 2)] := by decide

theorem enumerators_prio_e : enumerators prio_e =
    [("LOW_PRIO", 1), ("MED_PRIO", 2), ("HIGH_PRIO", 3), ("NO_PRIO", 4)] := by decide

theorem realTags_record_type_e : realTags record_type_e =
    [("R_TEXT", 0), ("R_JSON", 1), ("R_XML", 2)] := by decide

theorem realTags_event_type_e : realTags event_type_e =
    [("NO_EVENT", 0), ("ADD", 1), ("DELETE", 2), ("UPDATE", 3)] := by decide

theorem realTags_state_type_e : realTags state_type_e = [("DOWN", 0), ("UP", 1)] := by
  decide

theorem realTags_encap_type_e : realTags encap_type_e = [("NONE", 0), ("VXLAN", 1)] := by
  decide

theorem realTags_af_e : realTags af_e =
    [("AF_START", 0), ("AF_IPV4", 0), ("AF_IPV6", 1)] := by decide

theorem sentinel_zeroBased : zeroBased.map sentinel =
    [some ("R_MAX_TYPE", 3), some ("E_MAX_TYPE", 4), some ("S_MAX_TYPE", 2),
     some ("ENCAP_MAX_TYPE", 2), some ("MAX_AF", 2)] := by decide

/-! Section: Values of the enumerators. -/

/-- Claim C1: in `record_type_e`, `event_type_e`, `state_type_e` and
`encap_type_e` the enumerators, in declaration order, carry exactly the values
R_TEXT=0, R_JSON=1, R_XML=2, R_MAX_TYPE=3; NO_EVENT=0, ADD=1, DELETE=2, UPDATE=3,
E_MAX_TYPE=4; DOWN=0, UP=1, S_MAX_TYPE=2; NONE=0, VXLAN=1, ENCAP_MAX_TYPE=2,
the ones without initialiser included. -/
theorem four_enums_values :
    enumerators record_type_e =
        [("R_TEXT", 0), ("R_JSON", 1), ("R_XML", 2), ("R_MAX_TYPE", 3)] ∧
      enumerators event_type_e =
        [("NO_EVENT", 0), ("ADD", 1), ("DELETE", 2), ("UPDATE", 3), ("E_MAX_TYPE", 4)] ∧
      enumerators state_type_e = [("DOWN", 0), ("UP", 1), ("S_MAX_TYPE", 2)] ∧
      enumerators encap_type_e = [("NONE", 0), ("VXLAN", 1), ("ENCAP_MAX_TYPE", 2)] ∧
      record_type_e.map Enumerator.init = [some 0, none, none, none] ∧
      event_type_e.map Enumerator.init = [some 0, some 1, none, none, none] ∧
      state_type_e.map Enumerator.init = [some 0, none, none] ∧
      encap_type_e.map Enumerator.init = [some 0, none, none] :=
  ⟨enumerators_record_type_e, enumerators_event_type_e, enumerators_state_type_e,
    enumerators_encap_type_e, rfl, rfl, rfl, rfl⟩

/-- Claim C2: in `af_e`, `AF_START` and `AF_IPV4` have the same value and that
value is 0; `AF_IPV6` is 1; `MAX_AF`, declared right after `AF_IPV6` without an
initialiser, is 2. -/
theorem af_e_values :
    valueOf af_e "AF_START" = valueOf af_e "AF_IPV4" ∧
      valueOf af_e "AF_START" = some 0 ∧
      valueOf af_e "AF_IPV4" = some 0 ∧
      valueOf af_e "AF_IPV6" = some 1 ∧
      valueOf af_e "MAX_AF" = some 2 ∧
      af_e.drop 2 = [⟨"AF_IPV6", some 1⟩, ⟨"MAX_AF", none⟩] ∧
      names af_e = ["AF_START", "AF_IPV4", "AF_IPV6", "MAX_AF"] := by
  decide

/-- Claim C3: the values of `prio_e` begin at 1 and not 0: LOW_PRIO=1,
MED_PRIO=2, HIGH_PRIO=3, NO_PRIO=4, where only `LOW_PRIO` has an initialiser
and each of the other three is its predecessor plus one. -/
theorem prio_e_values :
    enumerators prio_e =
        [("LOW_PRIO", 1), ("MED_PRIO", 2), ("HIGH_PRIO", 3), ("NO_PRIO", 4)] ∧
      prio_e.map Enumerator.init = [some 1, none, none, none] ∧
      (values prio_e).head? = some 1 ∧
      (∀ v ∈ values prio_e, 1 ≤ v) ∧
      (∀ p ∈ adjacent prio_e, p.2.2 = p.1.2 + 1) := by
  decide

/-! Section: Conversion to integers and back. -/

theorem roundTrip_all : ∀ d ∈ allEnums, ∀ m ∈ names d,
    (roundTrip d m = some m ∨
        (d = af_e ∧ m = "AF_IPV4" ∧ roundTrip d m = some "AF_START" ∧
          valueOf d "AF_START" = valueOf d m)) ∧
      (valueOf d m).isSome = true ∧
      ∀ b ∈ names d, roundTrip d b = some b → roundTrip d m = some m →
        valueOf d b = valueOf d m → b = m := by
  decide

/-- Claim C4: for every enumerator `m` of each of the six enumerations, `m` has
an integer value and converting that value back to a member yields `m` again,
the one exception in naming being `AF_IPV4`, which comes back as `AF_START`,
the same member (same value) under its first-declared name; and the
to-integer map is injective on the members, that is on the enumerators that
come back under their own name. -/
theorem roundTrip_member (d : EnumDecl) (hd : d ∈ allEnums) (m : String)
    (hm : m ∈ names d) :
    (roundTrip d m = some m ∨
        (d = af_e ∧ m = "AF_IPV4" ∧ roundTrip d m = some "AF_START" ∧
          valueOf d "AF_START" = valueOf d m)) ∧
      (valueOf d m).isSome = true ∧
      ∀ b ∈ names d, roundTrip d b = some b → roundTrip d m = some m →
        valueOf d b = valueOf d m → b = m :=
  roundTrip_all d hd m hm

theorem roundTrip_member_witness :
    (roundTrip af_e "AF_IPV4" = some "AF_IPV4" ∨
        (af_e = af_e ∧ "AF_IPV4" = "AF_IPV4" ∧ roundTrip af_e "AF_IPV4" = some "AF_START" ∧
          valueOf af_e "AF_START" = valueOf af_e "AF_IPV4")) ∧
      (valueOf af_e "AF_IPV4").isSome = true ∧
      ∀ b ∈ names af_e, roundTrip af_e b = some b →
        roundTrip af_e "AF_IPV4" = some "AF_IPV4" →
        valueOf af_e b = valueOf af_e "AF_IPV4" → b = "AF_IPV4" :=
  roundTrip_member af_e (by decide) "AF_IPV4" (by decide)

/-! Section: Sentinels. -/

theorem sentinel_succ_all : ∀ d ∈ zeroBased,
    ∃ s ∈ sentinel d, (enumerators d).getLast? = some s ∧
      s.1 ∈ ["R_MAX_TYPE", "E_MAX_TYPE", "S_MAX_TYPE", "ENCAP_MAX_TYPE", "MAX_AF"] ∧
      realTags d = (enumerators d).dropLast ∧
      ∃ top ∈ realTags d, s.2 = top.2 + 1 ∧ ∀ q ∈ realTags d, q.2 ≤ top.2 := by
  decide

/-- Claim C5: in each of the five enumerations that declare a sentinel
(`R_MAX_TYPE`, `E_MAX_TYPE`, `S_MAX_TYPE`, `ENCAP_MAX_TYPE`, `MAX_AF`), the
sentinel is the last enumerator and its value is one plus the largest value
among the other enumerators. -/
theorem sentinel_eq_succ_max (d : EnumDecl) (hd : d ∈ zeroBased) :
    ∃ s ∈ sentinel d, (enumerators d).getLast? = some s ∧
      s.1 ∈ ["R_MAX_TYPE", "E_MAX_TYPE", "S_MAX_TYPE", "ENCAP_MAX_TYPE", "MAX_AF"] ∧
      realTags d = (enumerators d).dropLast ∧
      ∃ top ∈ realTags d, s.2 = top.2 + 1 ∧ ∀ q ∈ realTags d, q.2 ≤ top.2 :=
  sentinel_succ_all d hd

theorem sentinel_eq_succ_max_witness :
    ∃ s ∈ sentinel event_type_e, (enumerators event_type_e).getLast? = some s ∧
      s.1 ∈ ["R_MAX_TYPE", "E_MAX_TYPE", "S_MAX_TYPE", "ENCAP_MAX_TYPE", "MAX_AF"] ∧
      realTags event_type_e = (enumerators event_type_e).dropLast ∧
      ∃ top ∈ realTags event_type_e, s.2 = top.2 + 1 ∧
        ∀ q ∈ realTags event_type_e, q.2 ≤ top.2 :=
  sentinel_eq_succ_max event_type_e (by decide)

/-- Claim C6, refuted as stated: `prio_e` is one of the six enumerations, its
last-declared enumerator is `NO_PRIO` (value 4), which is no `MAX` bound, so
`prio_e` has no sentinel and not every enumeration ends in one. -/
theorem prio_e_last_not_sentinel :
    prio_e ∈ allEnums ∧
      (enumerators prio_e).getLast? = some ("NO_PRIO", 4) ∧
      isMaxName "NO_PRIO" = false ∧
      sentinel prio_e = none ∧
      ¬ (∀ d ∈ allEnums, ∃ s ∈ sentinel d, (enumerators d).getLast? = some s) := by
  decide

theorem sentinel_or_prio_all : ∀ d ∈ allEnums,
    (d ≠ prio_e ∧ ∃ s ∈ sentinel d, (enumerators d).getLast? = some s ∧
        ∀ p ∈ realTags d, isMaxName p.1 = false ∧ p.2 ≠ s.2) ∨
      (d = prio_e ∧ sentinel d = none ∧
        (enumerators d).getLast? = some ("NO_PRIO", 4) ∧
        ∀ p ∈ enumerators d, isMaxName p.1 = false) := by
  decide

/-- Claim C6, amended: each of the five enumerations other than `prio_e` has
as its last-declared enumerator a `MAX` sentinel, which is dedicated (no other
enumerator is a `MAX` bound or shares its value); `prio_e` declares no `MAX`
enumerator at all and its last-declared enumerator is `NO_PRIO` = 4. -/
theorem sentinel_last_except_prio (d : EnumDecl) (hd : d ∈ allEnums) :
    (d ≠ prio_e ∧ ∃ s ∈ sentinel d, (enumerators d).getLast? = some s ∧
        ∀ p ∈ realTags d, isMaxName p.1 = false ∧ p.2 ≠ s.2) ∨
      (d = prio_e ∧ sentinel d = none ∧
        (enumerators d).getLast? = some ("NO_PRIO", 4) ∧
        ∀ p ∈ enumerators d, isMaxName p.1 = false) :=
  sentinel_or_prio_all d hd

theorem sentinel_last_except_prio_witness :
    (state_type_e ≠ prio_e ∧
        ∃ s ∈ sentinel state_type_e, (enumerators state_type_e).getLast? = some s ∧
          ∀ p ∈ realTags state_type_e, isMaxName p.1 = false ∧ p.2 ≠ s.2) ∨
      (state_type_e = prio_e ∧ sentinel state_type_e = none ∧
        (enumerators state_type_e).getLast? = some ("NO_PRIO", 4) ∧
        ∀ p ∈ enumerators state_type_e, isMaxName p.1 = false) :=
  sentinel_last_except_prio state_type_e (by decide)

/-! Section: Validation by range. -/

/-- Claim C7: for each of the five zero-based enumerations and every integer
`n`, `n` is the value of a non-sentinel enumerator exactly when `0 ≤ n` and
`n` is strictly below the sentinel; the sentinels are 3, 4, 2, 2 and 2. -/
theorem realTag_iff_below_sentinel (d : EnumDecl) (hd : d ∈ zeroBased) (n : Int) :
    ((∃ p ∈ realTags d, p.2 = n) ↔ ∃ s ∈ sentinel d, 0 ≤ n ∧ n < s.2) ∧
      zeroBased.map (fun e => (sentinel e).map Prod.snd) =
        [some 3, some 4, some 2, some 2, some 2] := by
  refine ⟨?_, by decide⟩
  simp only [zeroBased, List.mem_cons, List.mem_singleton, List.not_mem_nil, or_false] at hd
  rcases hd with rfl | rfl | rfl | rfl | rfl
  · have hs : sentinel record_type_e = some ("R_MAX_TYPE", 3) := by decide
    rw [realTags_record_type_e, hs]
    simp
    omega
  · have hs : sentinel event_type_e = some ("E_MAX_TYPE", 4) := by decide
    rw [realTags_event_type_e, hs]
    simp
    omega
  · have hs : sentinel state_type_e = some ("S_MAX_TYPE", 2) := by decide
    rw [realTags_state_type_e, hs]
    simp
    omega
  · have hs : sentinel encap_type_e = some ("ENCAP_MAX_TYPE", 2) := by decide
    rw [realTags_encap_type_e, hs]
    simp
    omega
  · have hs : sentinel af_e = some ("MAX_AF", 2) := by decide
    rw [realTags_af_e, hs]
    simp
    omega

theorem realTag_iff_below_sentinel_witness :
    ((∃ p ∈ realTags af_e, p.2 = 1) ↔ ∃ s ∈ sentinel af_e, (0 : Int) ≤ 1 ∧ 1 < s.2) ∧
      zeroBased.map (fun e => (sentinel e).map Prod.snd) =
        [some 3, some 4, some 2, some 2, some 2] :=
  realTag_iff_below_sentinel af_e (by decide) 1

/-- Claim C8: an integer `n` is the value of some `prio_e` enumerator exactly
when `1 ≤ n ≤ 4`; in particular 0 is the value of no `prio_e` enumerator,
while 0 is the value of a non-sentinel enumerator in each of the other five
enumerations. -/
theorem prio_e_value_iff (n : Int) :
    (n ∈ values prio_e ↔ 1 ≤ n ∧ n ≤ 4) ∧
      (0 : Int) ∉ values prio_e ∧
      valueOf record_type_e "R_TEXT" = some 0 ∧
      valueOf event_type_e "NO_EVENT" = some 0 ∧
      valueOf state_type_e "DOWN" = some 0 ∧
      valueOf encap_type_e "NONE" = some 0 ∧
      valueOf af_e "AF_IPV4" = some 0 ∧
      (zeroBased ++ [prio_e] = allEnums ∧
        zeroBased.all (fun d => decide ((0 : Int) ∈ (realTags d).map Prod.snd)) = true) := by
  refine ⟨?_, by decide, by decide, by decide, by decide, by decide, by decide, by decide⟩
  have hv : values prio_e = [1, 2, 3, 4] := by decide
  rw [hv]
  simp
  omega

/-! Section: Aliases and ordering. -/

theorem alias_all : ∀ d ∈ allEnums, ∀ a ∈ names d, ∀ b ∈ names d, a ≠ b →
    (valueOf d a = valueOf d b ↔
      d = af_e ∧ valueOf d a = some 0 ∧
        (a = "AF_START" ∧ b = "AF_IPV4" ∨ a = "AF_IPV4" ∧ b = "AF_START")) := by
  decide

/-- Claim C9: within one enumeration, two distinct enumerator names have the
same integer value exactly when the enumeration is `af_e` and the two names
are `AF_START` and `AF_IPV4` (value 0); the names of every enumeration are
pairwise distinct and the aliased pair is really declared, so an integer maps
back to a single name everywhere except 0 in `af_e`. -/
theorem alias_only_af_start (d : EnumDecl) (hd : d ∈ allEnums) (a b : String)
    (ha : a ∈ names d) (hb : b ∈ names d) (hab : a ≠ b) :
    (valueOf d a = valueOf d b ↔
        d = af_e ∧ valueOf d a = some 0 ∧
          (a = "AF_START" ∧ b = "AF_IPV4" ∨ a = "AF_IPV4" ∧ b = "AF_START")) ∧
      (names d).Nodup ∧
      ("AF_START" ∈ names af_e ∧ "AF_IPV4" ∈ names af_e ∧
        valueOf af_e "AF_START" = valueOf af_e "AF_IPV4") :=
  ⟨alias_all d hd a ha b hb hab,
    by
      simp only [allEnums, List.mem_cons, List.mem_singleton, List.not_mem_nil,
        or_false] at hd
      rcases hd with rfl | rfl | rfl | rfl | rfl | rfl <;> decide,
    by decide⟩

theorem alias_only_af_start_witness :
    (valueOf af_e "AF_IPV4" = valueOf af_e "AF_START" ↔
        af_e = af_e ∧ valueOf af_e "AF_IPV4" = some 0 ∧
          ("AF_IPV4" = "AF_START" ∧ "AF_START" = "AF_IPV4" ∨
            "AF_IPV4" = "AF_IPV4" ∧ "AF_START" = "AF_START")) ∧
      (names af_e).Nodup ∧
      ("AF_START" ∈ names af_e ∧ "AF_IPV4" ∈ names af_e ∧
        valueOf af_e "AF_START" = valueOf af_e "AF_IPV4") :=
  alias_only_af_start af_e (by decide) "AF_IPV4" "AF_START" (by decide) (by decide)
    (by decide)

theorem adjacent_all : ∀ d ∈ allEnums, ∀ p ∈ adjacent d,
    p.1.2 ≤ p.2.2 ∧
      (p.1.2 < p.2.2 ∨ (d = af_e ∧ p.1.1 = "AF_START" ∧ p.2.1 = "AF_IPV4")) := by
  decide

theorem values_sorted_all : ∀ d ∈ allEnums, (values d).Pairwise (fun x y => x ≤ y) := by
  intro d hd
  simp only [allEnums, List.mem_cons, List.mem_singleton, List.not_mem_nil, or_false] at hd
  rcases hd with rfl | rfl | rfl | rfl | rfl | rfl <;> decide

/-- Claim C10: in every enumeration the values are non-decreasing in
declaration order, and each enumerator is strictly below the next one except
for the pair `AF_START`, `AF_IPV4` of `af_e`, which are equal; in `prio_e`
LOW_PRIO < MED_PRIO < HIGH_PRIO < NO_PRIO, so `NO_PRIO` carries the greatest
value of `prio_e` and not the least. -/
theorem values_monotone (d : EnumDecl) (hd : d ∈ allEnums) :
    (values d).Pairwise (fun x y => x ≤ y) ∧
      (∀ p ∈ adjacent d, p.1.2 ≤ p.2.2 ∧
        (p.1.2 < p.2.2 ∨ (d = af_e ∧ p.1.1 = "AF_START" ∧ p.2.1 = "AF_IPV4"))) ∧
      (("AF_START", 0), ("AF_IPV4", 0)) ∈ adjacent af_e ∧
      (∃ l m h n, valueOf prio_e "LOW_PRIO" = some l ∧ valueOf prio_e "MED_PRIO" = some m ∧
        valueOf prio_e "HIGH_PRIO" = some h ∧ valueOf prio_e "NO_PRIO" = some n ∧
        l < m ∧ m < h ∧ h < n ∧ ∀ v ∈ values prio_e, l ≤ v ∧ v ≤ n) :=
  ⟨values_sorted_all d hd, adjacent_all d hd, by decide,
    ⟨1, 2, 3, 4, by decide, by decide, by decide, by decide, by decide, by decide, by decide,
      by decide⟩⟩

theorem values_monotone_witness :
    (values af_e).Pairwise (fun x y => x ≤ y) ∧
      (∀ p ∈ adjacent af_e, p.1.2 ≤ p.2.2 ∧
        (p.1.2 < p.2.2 ∨ (af_e = af_e ∧ p.1.1 = "AF_START" ∧ p.2.1 = "AF_IPV4"))) ∧
      (("AF_START", 0), ("AF_IPV4", 0)) ∈ adjacent af_e ∧
      (∃ l m h n, valueOf prio_e "LOW_PRIO" = some l ∧ valueOf prio_e "MED_PRIO" = some m ∧
        valueOf prio_e "HIGH_PRIO" = some h ∧ valueOf prio_e "NO_PRIO" = some n ∧
        l < m ∧ m < h ∧ h < n ∧ ∀ v ∈ values prio_e, l ≤ v ∧ v ≤ n) :=
  values_monotone af_e (by decide)

end nxos
